import Mathlib

/-!
Shallow embedding of the pip-services3-postgres-gox data-access layer:
the connection manager (`connect/PostgresConnection.go`), the generic
persistence core (`persistence/PostgresPersistence.go`), the identifiable
extension and its JSON/document variant
(`persistence/IdentifiablePostgresPersistence.go`,
`persistence/IdentifiableJsonPostgresPersistence.go`).

Database interaction is modelled by passing the outcome of each issued
query (an error, a list of result rows, a deferred rows error) as explicit
data; pure query-string construction and the query-builder helpers are
translated function by function from the Go source.
-/

namespace PipPostgres

/-- Driver-level values appearing in result rows and row projections
(the Go side uses `any`; JSON round-trips restrict it to these shapes). -/
inductive Value where
  | null
  | bool (b : Bool)
  | int (n : Int)
  | str (s : String)
  | obj (fields : List (String × Value))

/-- Lookup in a row projection (Go `map[string]any` indexing, `none` = key absent). -/
def alookup (k : String) : List (String × Value) → Option Value
  | [] => none
  | (k2, v) :: t => if k2 = k then some v else alookup k t

/-- A row projection as produced by `convertToMap`: `none` models a `nil` map
(the JSON round trip in `convertToMap` failed), `some m` a non-nil map. -/
abbrev RowMap := Option (List (String × Value))

/-- A database error (`error` values returned by pgx). -/
structure DbErr where
  msg : String
deriving DecidableEq

/-- Domain errors produced by this layer (pip-services error kinds). -/
inductive PError where
  | connectionError (code : String)
  | invalidState (code : String)
deriving DecidableEq

/-- Outcome of one `Client.Query` call: the immediate error (`qErr`),
the result rows already read through `Values()`, and the deferred
`rows.Err()` value. -/
structure QueryRes where
  err : Option DbErr
  rows : List (List Value)
  rowsErr : Option DbErr

/-- The double-quote character used by `QuoteIdentifier`. -/
def dquoteChar : Char := Char.ofNat 34

/-- The single-quote character tested by `QuoteIdentifier`. -/
def squoteChar : Char := Char.ofNat 39

/-- Per-instance persistence state used by query construction
(`PostgresPersistence` fields `TableName`, `SchemaName`, `MaxPageSize`). -/
structure PersistConfig where
  TableName : String
  SchemaName : String
  MaxPageSize : Int

/-- Embeds `PostgresPersistence.QuoteIdentifier`: the empty string and any
value whose first character is a single quote are returned unchanged;
everything else is wrapped in double quotes (no escaping of the content).
Go inspects the first byte; we inspect the first character, which agrees
on the ASCII identifiers this layer handles. -/
def QuoteIdentifier (value : String) : String :=
  if value = "" then value
  else if value.data.head? = some squoteChar then value
  else "\"" ++ value ++ "\""

/-- Embeds `PostgresPersistence.QuotedTableName`: quoted `"schema"."table"`
when a schema name is set, quoted table name otherwise. -/
def QuotedTableName (c : PersistConfig) : String :=
  if c.SchemaName.length > 0 then
    QuoteIdentifier c.SchemaName ++ "." ++ QuoteIdentifier c.TableName
  else
    QuoteIdentifier c.TableName

/-- Embeds the comma-joining loop shared by `GenerateColumns` and friends:
a separator is written only when the accumulated string is non-empty. -/
def commaJoin (items : List String) : String :=
  items.foldl (fun acc s => if acc = "" then acc ++ s else acc ++ "," ++ s) ""

/-- Embeds `PostgresPersistence.GenerateColumns`: quoted, comma-joined
column identifiers of the projection (empty string for a nil map). -/
def GenerateColumns (values : RowMap) : String :=
  match values with
  | none => ""
  | some items => commaJoin (items.map (fun kv => QuoteIdentifier kv.1))

/-- Embeds `PostgresPersistence.GenerateSetParameters`: returns the
`"col"=$i` assignment list together with the parallel quoted column list.
The positional index starts at 1. -/
def GenerateSetParameters (values : RowMap) : String × String :=
  match values with
  | none => ("", "")
  | some items =>
    let r := items.foldl
      (fun (acc : String × String × Int) kv =>
        let sp := acc.1
        let cb := acc.2.1
        let idx := acc.2.2
        let sp2 := if sp = "" then sp else sp ++ ","
        let cb2 := if sp = "" then cb else cb ++ ","
        (sp2 ++ QuoteIdentifier kv.1 ++ "=$" ++ toString idx,
         cb2 ++ QuoteIdentifier kv.1,
         idx + 1))
      ("", "", 1)
    (r.1, r.2.1)

/-- Embeds Go `strings.Split(s, ",")` at the character level
(structural recursion so the kernel can evaluate it). -/
def splitComma : List Char → List (List Char)
  | [] => [[]]
  | ch :: t =>
    if ch = Char.ofNat 44 then
      [] :: splitComma t
    else
      match splitComma t with
      | h :: r => (ch :: h) :: r
      | [] => [[ch]]

/-- Embeds `strings.Split(strings.ReplaceAll(columns, quote, ""), ",")`
from `GenerateValues`: every double quote is removed, then the string is
split on commas. -/
def columnNameList (columns : String) : List String :=
  (splitComma (columns.data.filter (fun ch => ch ≠ dquoteChar))).map String.mk

/-- Result of `GenerateValues`: a nil slice (nil projection map),
a Go panic, or the ordered value list. -/
inductive GVResult where
  | nilRes
  | panicked
  | ok (vs : List Value)

/-- Embeds `PostgresPersistence.GenerateValues`: nil projection gives a nil
result; empty column list panics; otherwise each (unquoted) column name is
looked up in the projection, a missing key contributing the map's
missing-key value (`nil`, modelled as `Value.null`). -/
def GenerateValues (columns : String) (values : RowMap) : GVResult :=
  match values with
  | none => GVResult.nilRes
  | some items =>
    if columns = "" then GVResult.panicked
    else
      GVResult.ok ((columnNameList columns).map
        (fun name => (alookup name items).getD Value.null))

/-- Embeds the value-list preparation of `PostgresPersistence.Create`
(row → `GenerateColumns` → `GenerateValues`). -/
def createValues (row : RowMap) : GVResult :=
  GenerateValues (GenerateColumns row) row

/-- Embeds the value-list preparation of
`IdentifiablePostgresPersistence.Set` (row → `GenerateSetParameters`,
whose column list feeds `GenerateValues`). -/
def setValues (row : RowMap) : GVResult :=
  GenerateValues (GenerateSetParameters row).2 row

/-- Embeds the value-list preparation of
`IdentifiablePostgresPersistence.Update` (same column-list derivation as
`Set`). -/
def updateValues (row : RowMap) : GVResult :=
  GenerateValues (GenerateSetParameters row).2 row

/-- Modelled from the spec: paging parameters of the external commons
collaborator — `skip` (offset, -1 meaning unset), `take` (limit,
defaulting to a configured maximum page size) and a `total` flag. -/
structure PagingParams where
  skip : Option Int
  take : Option Int
  total : Bool

/-- Modelled from the spec: `GetSkip(minSkip)` yields the caller-supplied
skip, or the given default when unset. -/
def PagingParams.GetSkip (p : PagingParams) (minSkip : Int) : Int :=
  p.skip.getD minSkip

/-- Modelled from the spec: `GetTake(maxTake)` yields the caller-supplied
take, defaulting to the configured maximum page size when unset. -/
def PagingParams.GetTake (p : PagingParams) (maxTake : Int) : Int :=
  p.take.getD maxTake

/-- Embeds the SQL-string construction of
`PostgresPersistence.GetPageByFilter` (the first, page-fetching query):
optional projection, `WHERE` for a non-empty filter string, `ORDER BY`
for a non-empty sort string, `OFFSET` for a non-negative skip, and an
unconditional `LIMIT`. `none` models a nil (or non-string) argument. -/
def getPageByFilterQuery (c : PersistConfig) (filter : Option String)
    (paging : PagingParams) (sort : Option String) (sel : Option String) : String :=
  let query := "SELECT * FROM " ++ QuotedTableName c
  let query := match sel with
    | some slct =>
      if slct ≠ "" then "SELECT " ++ slct ++ " FROM " ++ QuotedTableName c else query
    | none => query
  let skip := paging.GetSkip (-1)
  let take := paging.GetTake c.MaxPageSize
  let query := match filter with
    | some flt => if flt ≠ "" then query ++ " WHERE " ++ flt else query
    | none => query
  let query := match sort with
    | some srt => if srt ≠ "" then query ++ " ORDER BY " ++ srt else query
    | none => query
  let query := if skip ≥ 0 then query ++ " OFFSET " ++ toString skip else query
  query ++ " LIMIT " ++ toString take

/-- The query shape stated by the specification:
`SELECT [projection|*] FROM table [WHERE filter] [ORDER BY sort]
[OFFSET skip] LIMIT take`, with each bracketed clause present exactly
under the stated condition and `take` defaulting to the configured
maximum page size. -/
def pageQuerySpec (c : PersistConfig) (filter : Option String)
    (paging : PagingParams) (sort : Option String) (sel : Option String) : String :=
  (match sel with
   | some s => if s ≠ "" then "SELECT " ++ s else "SELECT *"
   | none => "SELECT *")
  ++ " FROM " ++ QuotedTableName c
  ++ (match filter with
      | some f => if f ≠ "" then " WHERE " ++ f else ""
      | none => "")
  ++ (match sort with
      | some s => if s ≠ "" then " ORDER BY " ++ s else ""
      | none => "")
  ++ (if paging.skip.getD (-1) ≥ 0 then " OFFSET " ++ toString (paging.skip.getD (-1)) else "")
  ++ " LIMIT " ++ toString (paging.take.getD c.MaxPageSize)

/-- Lookup in a Go `map[string]string` where a missing key yields `""`. -/
def slookup (k : String) : List (String × String) → String
  | [] => ""
  | (k2, v) :: t => if k2 = k then v else slookup k t

/-- Embeds `PostgresPersistence.EnsureIndex`: builds the
`CREATE [UNIQUE] INDEX IF NOT EXISTS ...` statement that is queued via
`EnsureSchema`. The index name and table are quoted; the key columns are
appended verbatim, each followed by ` DESC` unless its direction is "1". -/
def ensureIndexStatement (c : PersistConfig) (name : String)
    (keys : List (String × String)) (options : List (String × String)) : String :=
  let builder := "CREATE"
  let builder := if slookup "unique" options ≠ "" then builder ++ " UNIQUE" else builder
  let indexName := QuoteIdentifier name
  let indexName :=
    if c.SchemaName.length > 0 then QuoteIdentifier c.SchemaName ++ "." ++ indexName
    else indexName
  let builder := builder ++ " INDEX IF NOT EXISTS " ++ indexName ++ " ON " ++ QuotedTableName c
  let builder := if slookup "type" options ≠ "" then builder ++ " " ++ slookup "type" options
    else builder
  let fields := keys.foldl
    (fun acc kv =>
      let acc := if acc ≠ "" then acc ++ ", " else acc
      let acc := acc ++ kv.1
      if kv.2 ≠ "1" then acc ++ " DESC" else acc)
    ""
  builder ++ "(" ++ fields ++ ")"

/-- Outcome of the catalog existence query issued by `CreateSchema`
(`SELECT to_regclass(...)`): the immediate query error, the first result
row (read through `Values()`) if `Next()` succeeded, the error of that
`Values()` call, and the deferred `rows.Err()`. -/
structure CatalogRes where
  err : Option DbErr
  firstRow : Option (List Value)
  valErr : Option DbErr
  rowsErr : Option DbErr

/-- Result of a `CreateSchema` run: the DDL statements actually issued,
each paired with its execution outcome, and the returned error value. -/
structure SchemaRunResult where
  executed : List (String × Option DbErr)
  result : Option DbErr

/-- Embeds `PostgresPersistence.CreateSchema`: with no pending statements
it returns nil at once; a failing catalog query (or a failing row read)
is returned; a first row whose value equals the table name skips all DDL
and returns nil; otherwise every pending statement is issued in order,
each failure only logged (the loop never aborts), and the catalog
query's deferred `Err()` is returned — the inner `qResult, err :=`
shadows the outer variables, so DDL outcomes never reach the result. -/
def CreateSchema (tableName : String) (stmts : List String)
    (cat : CatalogRes) (exec : String → Option DbErr) : SchemaRunResult :=
  if stmts.isEmpty then ⟨[], none⟩
  else
    match cat.err with
    | some e => ⟨[], some e⟩
    | none =>
      let runAll : SchemaRunResult := ⟨stmts.map (fun s => (s, exec s)), cat.rowsErr⟩
      match cat.firstRow with
      | some val =>
        match cat.valErr with
        | some e => ⟨[], some e⟩
        | none =>
          match val with
          | Value.str s :: _ => if s = tableName then ⟨[], none⟩ else runAll
          | _ => runAll
      | none => runAll

/-- Embeds the schema phase of `PostgresPersistence.Open` (after the
connection is validated): a non-nil `CreateSchema` result is wrapped in a
`CONNECT_FAILED` connection error, a nil result lets Open report
success. -/
def openSchemaPhase (schemaRes : SchemaRunResult) : Option PError :=
  match schemaRes.result with
  | some _ => some (PError.connectionError "CONNECT_FAILED")
  | none => none

/-- State of a result cursor positioned on a row, as consumed by
`ConvertToPublic`: the outcome of `rows.Values()` (`ok none` models a nil
values slice) and the column names from `FieldDescriptions()`. -/
structure RowsState where
  valuesRes : Except DbErr (Option (List Value))
  columns : List String

/-- Embeds `PostgresPersistence.ConvertToPublic` (relational converter):
a failing or nil `Values()` read yields the zero value; otherwise the
column/value map is serialized (`encode` models `JsonConverter.ToJson`)
and deserialized into the entity (`decode` models `JsonConvertor.FromJson`),
a deserialization failure again yielding the zero value. No error is ever
returned — the signature has no error channel. -/
def ConvertToPublic {T : Type} (default : T)
    (encode : List (String × Value) → String) (decode : String → Except DbErr T)
    (rows : RowsState) : T :=
  match rows.valuesRes with
  | .error _ => default
  | .ok none => default
  | .ok (some vals) =>
    match decode (encode (rows.columns.zip vals)) with
    | .error _ => default
    | .ok item => item

/-- The item selected by the document converter: the `data` column when
present, otherwise the whole row map. -/
def jsonRowItem (buf : List (String × Value)) : Value :=
  match alookup "data" buf with
  | some v => v
  | none => Value.obj buf

/-- Embeds `IdentifiableJsonPostgresPersistence.ConvertToPublic` (document
converter): a failing or nil `Values()` read yields the zero value; the
`data` column (or, absent one, the whole row) is re-serialized and
deserialized into the entity, a failure again yielding the zero value
with no error surfaced. -/
def JsonConvertToPublic {T : Type} (default : T)
    (encodeVal : Value → String) (decode : String → Except DbErr T)
    (rows : RowsState) : T :=
  match rows.valuesRes with
  | .error _ => default
  | .ok none => default
  | .ok (some vals) =>
    match decode (encodeVal (jsonRowItem (rows.columns.zip vals))) with
    | .error _ => default
    | .ok item => item

/-- Embeds `PostgresPersistence.GetOneRandom`: `countRes` is the outcome
of the `SELECT COUNT(*)` query and `pickRes` that of the follow-up
`SELECT ... OFFSET pos LIMIT 1` query (the offset being drawn by
`rand.Int63n(count)`). The count is the single `int64` column of the
first row, 0 otherwise; a zero count returns the zero entity with nil
error. When the second query fails, the Go source (line
`return item, qErr`) returns the FIRST query's error variable — provably
nil on that path — instead of `qErr2`. -/
def GetOneRandom {T : Type} (default : T) (convert : List Value → T)
    (countRes : QueryRes) (pickRes : QueryRes) : T × Option DbErr :=
  match countRes.err with
  | some e => (default, some e)
  | none =>
    match countRes.rows with
    | [] => (default, countRes.rowsErr)
    | r :: _ =>
      let count : Int := match r with
        | [Value.int n] => n
        | _ => 0
      if count = 0 then (default, none)
      else
        match pickRes.err with
        | some _ => (default, none)
        | none =>
          match pickRes.rows with
          | [] => (default, pickRes.rowsErr)
          | r2 :: _ => (convert r2, none)

/-- The parsed pgx pool configuration, reduced to the field `Open`
records (`config.ConnConfig.Database`). -/
structure PgPoolConfig where
  database : String

/-- The collaborator outcomes one `PostgresConnection.Open` call observes:
connection-string resolution, `pgxpool.ParseConfig`, and
`pgxpool.ConnectConfig` (pool establishment). -/
structure OpenEnv where
  resolveResult : Except DbErr String
  parseResult : Except DbErr PgPoolConfig
  connectResult : Except DbErr Unit

/-- Mutable state of `PostgresConnection`: the pool handle and the
recorded database name. -/
structure ConnState where
  Connection : Option Unit
  DatabaseName : String

/-- Embeds `PostgresConnection.Open`: a failed resolution is logged and
`nil` is returned (state untouched); a failed config parse is logged and
`nil` is returned; a failed pool establishment returns a
`CONNECT_FAILED` connection error; on success the pool handle and
database name are stored and `nil` is returned. -/
def PostgresConnection.Open (env : OpenEnv) (st : ConnState) : ConnState × Option PError :=
  match env.resolveResult with
  | .error _ => (st, none)
  | .ok _uri =>
    match env.parseResult with
    | .error _ => (st, none)
    | .ok config =>
      match env.connectResult with
      | .error _ => (st, some (PError.connectionError "CONNECT_FAILED"))
      | .ok _ => (⟨some (), config.database⟩, none)

/-- Embeds the UPDATE statement issued by
`IdentifiableJsonPostgresPersistence.UpdatePartially`. -/
def updatePartiallyJsonQuery (quotedTable : String) : String :=
  "UPDATE " ++ quotedTable ++ " SET \"data\"=\"data\"||$2 WHERE \"id\"=$1 RETURNING *"

/-- Modelled from the spec: PostgreSQL jsonb concatenation (`||`) of two
objects is a shallow merge — the right operand's keys overwrite, the left
operand's other keys are preserved (a non-object right operand simply
replaces the value). -/
def jsonbConcat : Value → Value → Value
  | .obj a, .obj b => .obj (a.filter (fun kv => (alookup kv.1 b).isNone) ++ b)
  | _, b => b

/-- Modelled from the spec: the row-level effect of executing the
`UpdatePartially` document-variant statement on a two-column
`(id, data)` table — the row keyed by `id` gets
`data := data || patch`. -/
def applyUpdatePartiallyJson (table : List (String × Value)) (id : String)
    (patch : Value) : List (String × Value) :=
  table.map (fun row => if row.1 = id then (row.1, jsonbConcat row.2 patch) else row)

/-- Top-level field lookup in a JSON object value. -/
def objLookup (v : Value) (k : String) : Option Value :=
  match v with
  | .obj fields => alookup k fields
  | _ => none

/-- The lookup behaviour the specification ascribes to the shallow merge:
keys present in the patch take the patch's value, all other keys keep the
stored value. -/
def mergeLookupSpec (a b : List (String × Value)) (k : String) : Option Value :=
  match alookup k b with
  | some v => some v
  | none => alookup k a

/-- Reference join used to state properties of `commaJoin`. -/
def specJoin : List String → String
  | [] => ""
  | [s] => s
  | s :: t => s ++ "," ++ specJoin t

/-- Tail form of `specJoin`, each element preceded by its separator. -/
def specJoinTail : List String → String
  | [] => ""
  | s :: t => "," ++ s ++ specJoinTail t

/-! Helper lemmas about strings and association lists. -/

theorem append_ne_empty_left (s t : String) (h : s ≠ "") : s ++ t ≠ "" := by
  intro he
  apply h
  have hl := congrArg String.length he
  rw [String.length_append] at hl
  have h0 : ("" : String).length = 0 := rfl
  rw [h0] at hl
  have hs : s.length = 0 := by omega
  cases s with
  | mk d =>
    cases d with
    | nil => rfl
    | cons c cs => simp [String.length] at hs

theorem length_pos_of_ne_empty (s : String) (h : s ≠ "") : 0 < s.length := by
  cases s with
  | mk d =>
    cases d with
    | nil => exact absurd rfl h
    | cons c cs => simp [String.length]

theorem lit_merge (a b c : String) (h : a ++ b = c) (x : String) :
    a ++ (b ++ x) = c ++ x := by
  rw [← String.append_assoc, h]

theorem specJoin_cons : ∀ (t : List String) (s : String),
    specJoin (s :: t) = s ++ specJoinTail t
  | [], s => by simp [specJoin, specJoinTail, String.append_empty]
  | x :: r, s => by
    have h3 : specJoin (s :: x :: r) = s ++ "," ++ specJoin (x :: r) := rfl
    rw [h3, specJoin_cons r x]
    simp [specJoinTail, String.append_assoc]

theorem commaJoin_go (t : List String) : ∀ acc : String, acc ≠ "" →
    t.foldl (fun acc s => if acc = "" then acc ++ s else acc ++ "," ++ s) acc
      = acc ++ specJoinTail t := by
  induction t with
  | nil =>
    intro acc _
    simp [specJoinTail, String.append_empty]
  | cons s r ih =>
    intro acc h
    have hstep : (if acc = "" then acc ++ s else acc ++ "," ++ s) = acc ++ "," ++ s :=
      if_neg h
    simp only [List.foldl, hstep]
    rw [ih (acc ++ "," ++ s)
      (append_ne_empty_left _ _ (append_ne_empty_left _ _ h))]
    simp [specJoinTail, String.append_assoc]

theorem commaJoin_eq_specJoin (l : List String) (h : ∀ s ∈ l, s ≠ "") :
    commaJoin l = specJoin l := by
  cases l with
  | nil => rfl
  | cons s t =>
    have hs : s ≠ "" := h s (by simp)
    unfold commaJoin
    simp only [List.foldl, if_true, eq_self_iff_true, String.empty_append]
    rw [commaJoin_go t s hs, specJoin_cons]

theorem quoteIdentifier_ne_empty (s : String) (h : s ≠ "") : QuoteIdentifier s ≠ "" := by
  unfold QuoteIdentifier
  rw [if_neg h]
  by_cases h2 : s.data.head? = some squoteChar
  · rw [if_pos h2]; exact h
  · rw [if_neg h2]
    exact append_ne_empty_left _ _ (append_ne_empty_left _ _ (by decide))

theorem alookup_append_some (k : String) (l1 l2 : List (String × Value)) (v : Value)
    (h : alookup k l1 = some v) : alookup k (l1 ++ l2) = some v := by
  induction l1 with
  | nil => simp [alookup] at h
  | cons hd t ih =>
    obtain ⟨k1, v1⟩ := hd
    by_cases hk : k1 = k
    · simp [alookup, hk] at h ⊢; exact h
    · simp [alookup, hk] at h ⊢; exact ih h

theorem alookup_append_none (k : String) (l1 l2 : List (String × Value))
    (h : alookup k l1 = none) : alookup k (l1 ++ l2) = alookup k l2 := by
  induction l1 with
  | nil => simp
  | cons hd t ih =>
    obtain ⟨k1, v1⟩ := hd
    by_cases hk : k1 = k
    · simp [alookup, hk] at h
    · simp [alookup, hk] at h ⊢; exact ih h

theorem merge_lookup (a b : List (String × Value)) (k : String) :
    alookup k (a.filter (fun kv => (alookup kv.1 b).isNone) ++ b)
      = mergeLookupSpec a b k := by
  induction a with
  | nil =>
    cases hb : alookup k b <;> simp [mergeLookupSpec, alookup, hb]
  | cons hd t ih =>
    obtain ⟨k1, v1⟩ := hd
    cases h1 : alookup k1 b with
    | none =>
      by_cases hk : k1 = k
      · subst hk
        cases hb : alookup k1 b with
        | none =>
          simp [List.filter, h1, alookup, mergeLookupSpec, hb]
        | some w => rw [h1] at hb; exact absurd hb (by simp)
      · simp only [List.filter, h1, Option.isNone_none, List.cons_append]
        rw [show alookup k ((k1, v1) :: (t.filter (fun kv => (alookup kv.1 b).isNone) ++ b))
            = alookup k (t.filter (fun kv => (alookup kv.1 b).isNone) ++ b) from by
          simp [alookup, hk]]
        rw [ih]
        cases hb : alookup k b <;> simp [mergeLookupSpec, hb, alookup, hk]
    | some w =>
      simp only [List.filter, h1, Option.isNone_some]
      rw [ih]
      by_cases hk : k1 = k
      · subst hk
        simp [mergeLookupSpec, h1]
      · cases hb : alookup k b <;> simp [mergeLookupSpec, hb, alookup, hk]

/-- C1: the claim states that `PostgresConnection.Open` returns a
ConnectionError whenever connection-string resolution, option parsing or
pool establishment fails, never reporting success without a pool. The
code violates this: a failed resolution and a failed parse are only
logged and `Open` returns nil with no pool established; only a failed
pool establishment produces the ConnectionError. This theorem evaluates
the embedded `Open` at the failing inputs. -/
theorem c1_open_swallows_resolution_and_parse_failures :
    PostgresConnection.Open
        ⟨Except.error ⟨"resolution failed"⟩, Except.error ⟨"unused"⟩, Except.error ⟨"unused"⟩⟩
        ⟨none, ""⟩
      = (⟨none, ""⟩, none)
    ∧ PostgresConnection.Open
        ⟨Except.ok "postgres uri", Except.error ⟨"bad config string"⟩, Except.error ⟨"unused"⟩⟩
        ⟨none, ""⟩
      = (⟨none, ""⟩, none)
    ∧ (⟨none, ""⟩ : ConnState).Connection = none
    ∧ PostgresConnection.Open
        ⟨Except.ok "postgres uri", Except.ok ⟨"db"⟩, Except.error ⟨"connection refused"⟩⟩
        ⟨none, ""⟩
      = (⟨none, ""⟩, some (PError.connectionError "CONNECT_FAILED")) :=
  ⟨rfl, rfl, rfl, rfl⟩

/-- C3: the claim states that when `GetOneRandom`'s second (offset) query
fails, its error is returned verbatim. The code instead returns the
variable holding the FIRST query's error, which is nil on that path: the
second query's error is swallowed and a zero-value entity with nil error
is returned. This theorem evaluates the embedded `GetOneRandom` at a run
where the count query succeeds with count 1 and the second query fails;
it also checks the zero-count path the claim describes (zero entity, nil
error). -/
theorem c3_get_one_random_swallows_second_query_error :
    GetOneRandom (0 : Nat) (fun _ => 7)
        ⟨none, [[Value.int 1]], none⟩
        ⟨some ⟨"second query failed"⟩, [], none⟩
      = (0, none)
    ∧ GetOneRandom (0 : Nat) (fun _ => 7)
        ⟨none, [[Value.int 0]], none⟩
        ⟨none, [], none⟩
      = (0, none) :=
  ⟨rfl, rfl⟩

/-- C10: `GenerateValues` panics whenever its column-list argument is the
empty string while the values argument converts to a non-nil map; and the
value preparation of `Create`, `Set` and `Update` — which derive the
column list from the entity's projection — hits exactly this panic when
the entity serializes to the empty (non-nil) map. -/
theorem c10_generate_values_empty_columns_panics :
    (∀ m : List (String × Value), GenerateValues "" (some m) = GVResult.panicked)
    ∧ GenerateColumns (some []) = ""
    ∧ GenerateSetParameters (some []) = ("", "")
    ∧ createValues (some []) = GVResult.panicked
    ∧ setValues (some []) = GVResult.panicked
    ∧ updateValues (some []) = GVResult.panicked :=
  ⟨fun _ => rfl, rfl, rfl, rfl, rfl, rfl⟩

/-- C6: the document-variant `UpdatePartially` issues
`UPDATE ... SET "data"="data"||$2 WHERE "id"=$1 RETURNING *` — a shallow
JSON merge on the row keyed by the id: every stored top-level key absent
from the patch keeps its value, every key present in the patch takes the
patch's value. The final conjuncts check the specification's concrete
scenario: merging patch (b=5) into stored document (id="1", a=1, b=2)
leaves `a` at 1 and sets `b` to 5. -/
theorem c6_update_partially_json_shallow_merge :
    (∀ qt : String, updatePartiallyJsonQuery qt
        = "UPDATE " ++ qt ++ " SET \"data\"=\"data\"||$2 WHERE \"id\"=$1 RETURNING *")
    ∧ (∀ (a b : List (String × Value)) (k : String),
        objLookup (jsonbConcat (Value.obj a) (Value.obj b)) k = mergeLookupSpec a b k)
    ∧ applyUpdatePartiallyJson
        [("1", Value.obj [("id", Value.str "1"), ("a", Value.int 1), ("b", Value.int 2)])]
        "1" (Value.obj [("b", Value.int 5)])
      = [("1", Value.obj [("id", Value.str "1"), ("a", Value.int 1), ("b", Value.int 5)])]
    ∧ objLookup (Value.obj [("id", Value.str "1"), ("a", Value.int 1), ("b", Value.int 5)]) "a"
      = some (Value.int 1)
    ∧ objLookup (Value.obj [("id", Value.str "1"), ("a", Value.int 1), ("b", Value.int 5)]) "b"
      = some (Value.int 5) := by
  refine ⟨fun _ => rfl, ?_, rfl, rfl, rfl⟩
  intro a b k
  show alookup k (a.filter (fun kv => (alookup kv.1 b).isNone) ++ b) = mergeLookupSpec a b k
  exact merge_lookup a b k

/-- C7: for every projection map and non-empty column-list string,
`GenerateValues` returns one value per comma-separated (unquoted) column
name, the i-th value being the projection's value for the i-th name, a
column absent from the projection contributing the map's missing-key
value. -/
theorem c7_generate_values_ordered_lookup (m : List (String × Value)) (columns : String)
    (h : columns ≠ "") :
    GenerateValues columns (some m)
      = GVResult.ok ((columnNameList columns).map
          (fun name => (alookup name m).getD Value.null))
    ∧ ((columnNameList columns).map
        (fun name => (alookup name m).getD Value.null)).length
      = (columnNameList columns).length
    ∧ (∀ i : Nat,
        ((columnNameList columns).map
          (fun name => (alookup name m).getD Value.null))[i]?
        = ((columnNameList columns)[i]?).map
            (fun name => (alookup name m).getD Value.null)) := by
  refine ⟨?_, List.length_map _ _, fun i => List.getElem?_map _ _ _⟩
  simp [GenerateValues, h]

/-- C7 witness: a concrete three-column list over a projection containing
only two of the columns evaluates to the values in column order with the
missing column contributing the null value. -/
theorem c7_generate_values_ordered_lookup_witness :
    ("\"a\",\"b\",\"c\"" : String) ≠ ""
    ∧ columnNameList "\"a\",\"b\",\"c\"" = ["a", "b", "c"]
    ∧ (GenerateValues "\"a\",\"b\",\"c\"" (some [("a", Value.int 1), ("c", Value.str "x")])
        = GVResult.ok ((columnNameList "\"a\",\"b\",\"c\"").map
            (fun name => (alookup name [("a", Value.int 1), ("c", Value.str "x")]).getD Value.null))
      ∧ ((columnNameList "\"a\",\"b\",\"c\"").map
          (fun name => (alookup name [("a", Value.int 1), ("c", Value.str "x")]).getD Value.null)).length
        = (columnNameList "\"a\",\"b\",\"c\"").length
      ∧ (∀ i : Nat,
          ((columnNameList "\"a\",\"b\",\"c\"").map
            (fun name => (alookup name [("a", Value.int 1), ("c", Value.str "x")]).getD Value.null))[i]?
          = ((columnNameList "\"a\",\"b\",\"c\"")[i]?).map
              (fun name => (alookup name [("a", Value.int 1), ("c", Value.str "x")]).getD Value.null))) :=
  ⟨by decide, by decide,
    c7_generate_values_ordered_lookup [("a", Value.int 1), ("c", Value.str "x")]
      "\"a\",\"b\",\"c\"" (by decide)⟩

/-- C4: during schema bootstrap with a non-empty pending list and a
catalog probe showing the table missing, a failing DDL statement does not
stop the run — every pending statement is still issued in order — and
`CreateSchema` still returns nil, so the schema phase of `Open` reports
success. -/
theorem c4_create_schema_ddl_failure_nonfatal (tableName : String) (stmts : List String)
    (cat : CatalogRes) (exec : String → Option DbErr) (s0 : String) (e : DbErr)
    (hne : stmts ≠ []) (hmem : s0 ∈ stmts) (hfail : exec s0 = some e)
    (hcerr : cat.err = none) (hrow : cat.firstRow = none) (hrerr : cat.rowsErr = none) :
    (CreateSchema tableName stmts cat exec).executed = stmts.map (fun s => (s, exec s))
    ∧ (CreateSchema tableName stmts cat exec).result = none
    ∧ openSchemaPhase (CreateSchema tableName stmts cat exec) = none := by
  obtain ⟨ce, cf, cv, cr⟩ := cat
  simp only at hcerr hrow hrerr
  subst hcerr; subst hrow; subst hrerr
  have hie : stmts.isEmpty = false := by
    cases stmts with
    | nil => exact absurd rfl hne
    | cons a t => rfl
  simp [CreateSchema, openSchemaPhase, hie]

/-- C4 witness: two pending statements with the first one failing are both
executed and the Open schema phase still reports success. -/
theorem c4_create_schema_ddl_failure_nonfatal_witness :
    (["CREATE TABLE d", "CREATE INDEX i"] : List String) ≠ []
    ∧ "CREATE TABLE d" ∈ (["CREATE TABLE d", "CREATE INDEX i"] : List String)
    ∧ (fun s => if s = "CREATE TABLE d" then some (⟨"boom"⟩ : DbErr) else none) "CREATE TABLE d"
      = some (⟨"boom"⟩ : DbErr)
    ∧ ((CreateSchema "dummies" ["CREATE TABLE d", "CREATE INDEX i"] ⟨none, none, none, none⟩
          (fun s => if s = "CREATE TABLE d" then some (⟨"boom"⟩ : DbErr) else none)).executed
        = (["CREATE TABLE d", "CREATE INDEX i"] : List String).map
            (fun s => (s, (fun s => if s = "CREATE TABLE d" then some (⟨"boom"⟩ : DbErr) else none) s))
      ∧ (CreateSchema "dummies" ["CREATE TABLE d", "CREATE INDEX i"] ⟨none, none, none, none⟩
          (fun s => if s = "CREATE TABLE d" then some (⟨"boom"⟩ : DbErr) else none)).result = none
      ∧ openSchemaPhase (CreateSchema "dummies" ["CREATE TABLE d", "CREATE INDEX i"]
          ⟨none, none, none, none⟩
          (fun s => if s = "CREATE TABLE d" then some (⟨"boom"⟩ : DbErr) else none)) = none) :=
  ⟨by decide, by decide, rfl,
    c4_create_schema_ddl_failure_nonfatal "dummies" ["CREATE TABLE d", "CREATE INDEX i"]
      ⟨none, none, none, none⟩
      (fun s => if s = "CREATE TABLE d" then some (⟨"boom"⟩ : DbErr) else none)
      "CREATE TABLE d" ⟨"boom"⟩ (by decide) (by decide) rfl rfl rfl rfl⟩

/-- C5: with a non-empty pending list and a successful catalog probe,
`CreateSchema` executes no pending statement and returns nil when the
probe's first row value equals the table name (the table already
resolves); in every other case — no probe row at all, or a first row
whose first value is anything other than the table-name string (a
different name, a null as `to_regclass` yields for a missing table, an
empty row, a non-string value) — every pending statement is executed in
the order it was added. -/
theorem c5_create_schema_skip_or_run_all (tableName : String) (stmts : List String)
    (cat : CatalogRes) (exec : String → Option DbErr)
    (hne : stmts ≠ []) (hcerr : cat.err = none) (hverr : cat.valErr = none) :
    (∀ rest, cat.firstRow = some (Value.str tableName :: rest) →
        CreateSchema tableName stmts cat exec = ⟨[], none⟩)
    ∧ (cat.firstRow = none →
        (CreateSchema tableName stmts cat exec).executed
          = stmts.map (fun s => (s, exec s)))
    ∧ (∀ val, cat.firstRow = some val → (∀ rest, val ≠ Value.str tableName :: rest) →
        (CreateSchema tableName stmts cat exec).executed
          = stmts.map (fun s2 => (s2, exec s2))) := by
  obtain ⟨ce, cf, cv, cr⟩ := cat
  simp only at hcerr hverr
  subst hcerr; subst hverr
  have hie : stmts.isEmpty = false := by
    cases stmts with
    | nil => exact absurd rfl hne
    | cons a t => rfl
  refine ⟨?_, ?_, ?_⟩
  · intro rest hrow
    simp only at hrow
    subst hrow
    simp [CreateSchema, hie]
  · intro hrow
    simp only at hrow
    subst hrow
    simp [CreateSchema, hie]
  · intro val hrow hneq
    simp only at hrow
    subst hrow
    cases val with
    | nil => simp [CreateSchema, hie]
    | cons v t =>
      cases v with
      | null => simp [CreateSchema, hie]
      | bool b => simp [CreateSchema, hie]
      | int n => simp [CreateSchema, hie]
      | obj fields => simp [CreateSchema, hie]
      | str s =>
        by_cases hs : s = tableName
        · exact (hneq t (by rw [hs])).elim
        · simp [CreateSchema, hie, hs]

/-- C5 witness: with the catalog probe resolving the table name the run is
skipped entirely; with no catalog row both statements run in order; and
with the probe returning a null first value — what `to_regclass` yields
for a missing table — both statements also run in order. -/
theorem c5_create_schema_skip_or_run_all_witness :
    (["s1", "s2"] : List String) ≠ []
    ∧ (⟨none, some [Value.str "dummies"], none, none⟩ : CatalogRes).err = none
    ∧ (⟨none, some [Value.str "dummies"], none, none⟩ : CatalogRes).valErr = none
    ∧ (⟨none, some [Value.str "dummies"], none, none⟩ : CatalogRes).firstRow
      = some (Value.str "dummies" :: [])
    ∧ CreateSchema "dummies" ["s1", "s2"] ⟨none, some [Value.str "dummies"], none, none⟩
        (fun _ => none)
      = ⟨[], none⟩
    ∧ (CreateSchema "dummies" ["s1", "s2"] ⟨none, none, none, none⟩ (fun _ => none)).executed
      = (["s1", "s2"] : List String).map (fun s => (s, (fun _ => (none : Option DbErr)) s))
    ∧ (∀ rest, ([Value.null] : List Value) ≠ Value.str "dummies" :: rest)
    ∧ (CreateSchema "dummies" ["s1", "s2"] ⟨none, some [Value.null], none, none⟩
        (fun _ => none)).executed
      = (["s1", "s2"] : List String).map (fun s => (s, (fun _ => (none : Option DbErr)) s)) :=
  ⟨by decide, rfl, rfl, rfl,
    (c5_create_schema_skip_or_run_all "dummies" ["s1", "s2"]
      ⟨none, some [Value.str "dummies"], none, none⟩ (fun _ => none)
      (by decide) rfl rfl).1 [] rfl,
    (c5_create_schema_skip_or_run_all "dummies" ["s1", "s2"]
      ⟨none, none, none, none⟩ (fun _ => none)
      (by decide) rfl rfl).2.1 rfl,
    by intro rest h; simp at h,
    (c5_create_schema_skip_or_run_all "dummies" ["s1", "s2"]
      ⟨none, some [Value.null], none, none⟩ (fun _ => none)
      (by decide) rfl rfl).2.2 [Value.null] rfl
      (by intro rest h; simp at h)⟩

/-- C8: for both converter strategies, a failing (or nil) row read and a
failing deserialization each yield the zero value of the entity type, and
no error is surfaced — the functions have no error channel, so a caller
cannot distinguish a missing row from an unparsable one. -/
theorem c8_convert_to_public_silent_default (T : Type) (default : T)
    (encode : List (String × Value) → String) (encodeVal : Value → String)
    (decode : String → Except DbErr T) (rows : RowsState) :
    (∀ e, rows.valuesRes = Except.error e →
        ConvertToPublic default encode decode rows = default
        ∧ JsonConvertToPublic default encodeVal decode rows = default)
    ∧ (rows.valuesRes = Except.ok none →
        ConvertToPublic default encode decode rows = default
        ∧ JsonConvertToPublic default encodeVal decode rows = default)
    ∧ (∀ vals e, rows.valuesRes = Except.ok (some vals) →
        (decode (encode (rows.columns.zip vals)) = Except.error e →
          ConvertToPublic default encode decode rows = default)
        ∧ (decode (encodeVal (jsonRowItem (rows.columns.zip vals))) = Except.error e →
          JsonConvertToPublic default encodeVal decode rows = default)) := by
  obtain ⟨vr, cols⟩ := rows
  refine ⟨?_, ?_, ?_⟩
  · intro e he
    simp only at he
    subst he
    exact ⟨rfl, rfl⟩
  · intro he
    simp only at he
    subst he
    exact ⟨rfl, rfl⟩
  · intro vals e he
    simp only at he
    subst he
    constructor
    · intro hd
      simp [ConvertToPublic, hd]
    · intro hd
      simp [JsonConvertToPublic, hd]

/-- C8 witness: a failed row read and a failed deserialization both
evaluate to the zero value (here 0) for the relational and the document
converter. -/
theorem c8_convert_to_public_silent_default_witness :
    ((⟨Except.error ⟨"read failed"⟩, []⟩ : RowsState).valuesRes
        = Except.error (⟨"read failed"⟩ : DbErr)
      ∧ ConvertToPublic (0 : Nat) (fun _ => "") (fun _ => Except.error ⟨"bad"⟩)
          ⟨Except.error ⟨"read failed"⟩, []⟩ = 0
      ∧ JsonConvertToPublic (0 : Nat) (fun _ => "") (fun _ => Except.error ⟨"bad"⟩)
          ⟨Except.error ⟨"read failed"⟩, []⟩ = 0)
    ∧ ((fun (_ : String) => (Except.error ⟨"bad"⟩ : Except DbErr Nat)) ""
        = Except.error (⟨"bad"⟩ : DbErr)
      ∧ ConvertToPublic (0 : Nat) (fun _ => "") (fun _ => Except.error ⟨"bad"⟩)
          ⟨Except.ok (some [Value.int 1]), ["x"]⟩ = 0
      ∧ JsonConvertToPublic (0 : Nat) (fun _ => "") (fun _ => Except.error ⟨"bad"⟩)
          ⟨Except.ok (some [Value.int 1]), ["x"]⟩ = 0) :=
  ⟨⟨rfl,
    ((c8_convert_to_public_silent_default Nat 0 (fun _ => "") (fun _ => "")
        (fun _ => Except.error ⟨"bad"⟩) ⟨Except.error ⟨"read failed"⟩, []⟩).1
      ⟨"read failed"⟩ rfl).1,
    ((c8_convert_to_public_silent_default Nat 0 (fun _ => "") (fun _ => "")
        (fun _ => Except.error ⟨"bad"⟩) ⟨Except.error ⟨"read failed"⟩, []⟩).1
      ⟨"read failed"⟩ rfl).2⟩,
   ⟨rfl,
    ((c8_convert_to_public_silent_default Nat 0 (fun _ => "") (fun _ => "")
        (fun _ => Except.error ⟨"bad"⟩) ⟨Except.ok (some [Value.int 1]), ["x"]⟩).2.2
      [Value.int 1] ⟨"bad"⟩ rfl).1 rfl,
    ((c8_convert_to_public_silent_default Nat 0 (fun _ => "") (fun _ => "")
        (fun _ => Except.error ⟨"bad"⟩) ⟨Except.ok (some [Value.int 1]), ["x"]⟩).2.2
      [Value.int 1] ⟨"bad"⟩ rfl).2 rfl⟩⟩

/-- C9 counterexample: the claim also asserts that every column identifier
in generated SQL passes through `QuoteIdentifier`. It is false: the index
key columns of `EnsureIndex` are embedded verbatim. At the concrete input
below the generated statement contains the column identifier `MyKey`
unquoted, and the `QuoteIdentifier` image of that identifier occurs
nowhere in the statement. -/
theorem c9_quote_identifier_counterexample :
    ensureIndexStatement ⟨"dummies", "", 100⟩ "idx" [("MyKey", "0")] []
      = "CREATE INDEX IF NOT EXISTS \"idx\" ON \"dummies\"(MyKey DESC)"
    ∧ QuoteIdentifier "MyKey" = "\"MyKey\""
    ∧ ¬ (("\"MyKey\"" : String).data
          <:+: ("CREATE INDEX IF NOT EXISTS \"idx\" ON \"dummies\"(MyKey DESC)" : String).data) :=
  ⟨rfl, rfl, by decide⟩

/-- C9 amended: `QuoteIdentifier` returns its argument unchanged when it
is empty or starts with a single quote and otherwise wraps it in double
quotes without escaping its content; table and schema identifiers pass
through it via `QuotedTableName`, and the column generators quote every
projection column through it — but the index key columns of `EnsureIndex`
are embedded verbatim, without quoting. -/
theorem c9_quote_identifier_amended (value : String) (c : PersistConfig)
    (m : List (String × Value)) (name k d : String) :
    (value = "" → QuoteIdentifier value = value)
    ∧ (value ≠ "" → value.data.head? = some squoteChar → QuoteIdentifier value = value)
    ∧ (value ≠ "" → value.data.head? ≠ some squoteChar →
        QuoteIdentifier value = "\"" ++ value ++ "\"")
    ∧ (c.SchemaName ≠ "" →
        QuotedTableName c = QuoteIdentifier c.SchemaName ++ "." ++ QuoteIdentifier c.TableName)
    ∧ (c.SchemaName = "" → QuotedTableName c = QuoteIdentifier c.TableName)
    ∧ ((∀ p ∈ m, p.1 ≠ "") →
        GenerateColumns (some m) = specJoin (m.map (fun p => QuoteIdentifier p.1)))
    ∧ ensureIndexStatement ⟨c.TableName, "", c.MaxPageSize⟩ name [(k, d)] []
      = "CREATE INDEX IF NOT EXISTS " ++ QuoteIdentifier name ++ " ON "
        ++ QuoteIdentifier c.TableName ++ "(" ++ k
        ++ (if d ≠ "1" then " DESC" else "") ++ ")" := by
  refine ⟨?_, ?_, ?_, ?_, ?_, ?_, ?_⟩
  · intro h; simp [QuoteIdentifier, h]
  · intro h hq; simp [QuoteIdentifier, h, hq]
  · intro h hq; simp [QuoteIdentifier, h, hq]
  · intro h
    have hp : 0 < c.SchemaName.length := length_pos_of_ne_empty _ h
    simp [QuotedTableName, hp]
  · intro h
    have hz : c.SchemaName.length = 0 := by rw [h]; rfl
    simp [QuotedTableName, hz]
  · intro h
    show commaJoin (m.map (fun kv => QuoteIdentifier kv.1))
      = specJoin (m.map (fun p => QuoteIdentifier p.1))
    rw [commaJoin_eq_specJoin]
    intro s hs
    obtain ⟨p, hp, hps⟩ := List.mem_map.mp hs
    exact hps ▸ quoteIdentifier_ne_empty p.1 (h p hp)
  · unfold ensureIndexStatement QuotedTableName
    simp only [slookup, String.length, List.length_nil, lt_irrefl, if_false]
    have hz : (("" : String).length > 0) = False := by simp
    by_cases hd : d = "1"
    · subst hd
      simp [String.empty_append, String.append_assoc,
        lit_merge "CREATE" " INDEX IF NOT EXISTS " "CREATE INDEX IF NOT EXISTS " rfl]
    · simp [hd, String.empty_append, String.append_assoc,
        lit_merge "CREATE" " INDEX IF NOT EXISTS " "CREATE INDEX IF NOT EXISTS " rfl]

/-- C9 amended witness: the branches of the amended statement evaluated at
concrete identifiers — a plain identifier is wrapped without escaping, a
schema-qualified table is quoted on both parts, a single-column projection
is quoted, and a concrete index statement embeds its key verbatim. -/
theorem c9_quote_identifier_amended_witness :
    (("my col" : String) ≠ ""
      ∧ ("my col" : String).data.head? ≠ some squoteChar
      ∧ QuoteIdentifier "my col" = "\"my col\"")
    ∧ (("sch" : String) ≠ ""
      ∧ QuotedTableName ⟨"tab", "sch", 100⟩
        = QuoteIdentifier "sch" ++ "." ++ QuoteIdentifier "tab")
    ∧ ((∀ p ∈ ([("a", Value.null)] : List (String × Value)), p.1 ≠ "")
      ∧ GenerateColumns (some [("a", Value.null)])
        = specJoin (([("a", Value.null)] : List (String × Value)).map
            (fun p => QuoteIdentifier p.1)))
    ∧ ensureIndexStatement ⟨"tab", "", 100⟩ "idx" [("key", "1")] []
      = "CREATE INDEX IF NOT EXISTS " ++ QuoteIdentifier "idx" ++ " ON "
        ++ QuoteIdentifier "tab" ++ "(" ++ "key"
        ++ (if ("1" : String) ≠ "1" then " DESC" else "") ++ ")" :=
  ⟨⟨by decide, by decide,
      (c9_quote_identifier_amended "my col" ⟨"tab", "sch", 100⟩ [("a", Value.null)]
        "idx" "key" "1").2.2.1 (by decide) (by decide)⟩,
   ⟨by decide,
      (c9_quote_identifier_amended "my col" ⟨"tab", "sch", 100⟩ [("a", Value.null)]
        "idx" "key" "1").2.2.2.1 (by decide)⟩,
   ⟨by decide,
      (c9_quote_identifier_amended "my col" ⟨"tab", "sch", 100⟩ [("a", Value.null)]
        "idx" "key" "1").2.2.2.2.2.1 (by decide)⟩,
   (c9_quote_identifier_amended "my col" ⟨"tab", "", 100⟩ [("a", Value.null)]
        "idx" "key" "1").2.2.2.2.2.2⟩

/-- C2: for every filter, paging, sort and projection argument, the page
query built by `GetPageByFilter` has exactly the shape
`SELECT [projection|*] FROM table [WHERE filter] [ORDER BY sort]
[OFFSET skip] LIMIT take` — the WHERE and ORDER BY clauses present iff the
corresponding argument is a non-empty string, the OFFSET clause present
iff the skip value is non-negative (unset paging giving -1), and `take`
equal to the paging take value, defaulting to the configured maximum page
size when unset. -/
theorem c2_get_page_by_filter_query_shape (c : PersistConfig) (filter : Option String)
    (paging : PagingParams) (sort : Option String) (sel : Option String) :
    getPageByFilterQuery c filter paging sort sel = pageQuerySpec c filter paging sort sel := by
  have hsel := lit_merge "SELECT *" " FROM " "SELECT * FROM " rfl
  rcases sel with _ | s <;> rcases filter with _ | f <;> rcases sort with _ | t <;>
    simp only [getPageByFilterQuery, pageQuerySpec, PagingParams.GetSkip,
      PagingParams.GetTake] <;>
    split_ifs <;>
    simp [String.append_assoc, String.empty_append, String.append_empty, hsel]

end PipPostgres
